import Mathlib

/-!
Shallow embedding of the control scripts of the NavegacionAutonoma repository.

Real-valued quantities of the Python scripts are modelled over the rationals.
A lidar sample is an `Option ℚ`, with `none` standing for an infinite reading
(no return).  Images are modelled as a shape (height, width, channels) together
with a pixel function; the external OpenCV calls used by the scripts are
modelled through their shape contracts, with nearest-neighbour sampling
standing in for the library interpolation, which the scripts never depend on.
-/

/-- An image: dimensions plus a pixel function (row, column, channel to byte). -/
structure Image where
  height : ℕ
  width : ℕ
  channels : ℕ
  pixel : ℕ → ℕ → ℕ → ℕ

/-- Model of numpy frombuffer followed by reshape to (height, width, 4):
the flat byte buffer viewed as a three-dimensional array in row-major order. -/
def frombuffer_reshape (h w : ℕ) (buf : ℕ → ℕ) : Image :=
  { height := h
    width := w
    channels := 4
    pixel := fun r c ch => buf ((r * w + c) * 4 + ch) }

/-- Model of the external cv2.resize with dsize (w, h): the output has the
requested width and height and the same number of channels; pixels are sampled
from the source image. -/
def cv2_resize (img : Image) (w h : ℕ) : Image :=
  { height := h
    width := w
    channels := img.channels
    pixel := fun r c ch => img.pixel (r * img.height / h) (c * img.width / w) ch }

/-- Model of the numpy slice image[r0:, :, :]: drop the first r0 rows. -/
def crop_rows_from (img : Image) (r0 : ℕ) : Image :=
  { height := img.height - r0
    width := img.width
    channels := img.channels
    pixel := fun r c ch => img.pixel (r + r0) c ch }

/-- Model of the external cv2.cvtColor with COLOR_BGRA2BGR: the alpha channel
is dropped, leaving three channels. -/
def cvtColor_BGRA2BGR (img : Image) : Image :=
  { img with channels := 3 }

namespace BehavioralCloningDriving

/-- CarEngine.MAX_ANGLE of behavioral_cloning_driving.py (0.28). -/
def MAX_ANGLE : ℚ := 28 / 100

/-- The DEAD_ZONE constant local to CarEngine.set_steering_angle (0.06). -/
def DEAD_ZONE : ℚ := 6 / 100

/-- CarEngine.set_steering_angle of behavioral_cloning_driving.py: the input
value is replaced by 0.0 unless its absolute value is greater than DEAD_ZONE,
and the stored angle is MAX_ANGLE times the resulting value. -/
def set_steering_angle (value : ℚ) : ℚ :=
  MAX_ANGLE * (if |value| > DEAD_ZONE then value else 0)

/-- CarEngine.get_image of behavioral_cloning_driving.py: reshape the raw
camera buffer to (camera height, camera width, 4), resize to dsize (200, 66),
crop rows from row 35 on, resize again to dsize (200, 66), and convert the
color from BGRA to BGR. -/
def get_image (cameraHeight cameraWidth : ℕ) (raw_image : ℕ → ℕ) : Image :=
  let image := frombuffer_reshape cameraHeight cameraWidth raw_image
  let image := cv2_resize image 200 66
  let image := crop_rows_from image 35
  let image := cv2_resize image 200 66
  cvtColor_BGRA2BGR image

end BehavioralCloningDriving

namespace CaptureControllerUltimate

/-- Controller.DEAD_ZONE of capture_controller_ultimate.py (0.05). -/
def DEAD_ZONE : ℚ := 5 / 100

/-- Controller.get_axis applied to the raw axis value read from the joystick:
0.0 when the absolute value is below DEAD_ZONE, the value itself otherwise. -/
def get_axis (value : ℚ) : ℚ :=
  if |value| < DEAD_ZONE then 0 else value

/-- CarEngine.MAX_STEERING of capture_controller_ultimate.py (1.0). -/
def MAX_STEERING : ℚ := 1

/-- CarEngine.set_steering_angle of capture_controller_ultimate.py: the stored
angle is MAX_STEERING times the joystick value, with no dead-zone of its own. -/
def set_steering_angle (joystick_value : ℚ) : ℚ :=
  MAX_STEERING * joystick_value

/-- The image file name built in FileHandler.write_path_image:
os.path.join(folder, "M-" + current_datetime + "-" + pic_num + ".png"). -/
def image_file_name (folder current_datetime : String) (pic_num : ℕ) : String :=
  folder ++ "/M-" ++ current_datetime ++ "-" ++ toString pic_num ++ ".png"

/-- The mutable state of a FileHandler that matters to write_path_image:
the folder name, the picture counter, the name of the last written image
(None before any row is written in this run), and the data rows written so
far in this run (file name and steering angle). -/
structure FileHandlerState where
  folder : String
  pic_num : ℕ
  last_image : Option String
  rows : List (String × ℚ)

/-- FileHandler.__init__ state: pic_num is 0 when the CSV had no rows and
last_row - 1 otherwise; last_image starts as None and no row has been
written in this run. -/
def FileHandlerState.init (folder : String) (last_row : ℕ) : FileHandlerState :=
  { folder := folder
    pic_num := if last_row = 0 then 0 else last_row - 1
    last_image := none
    rows := [] }

/-- FileHandler.write_path_image: build the file name from the folder, the
current datetime string and pic_num; when it differs from last_image, append
one data row, record the name in last_image and increment pic_num; otherwise
do nothing. -/
def write_path_image (s : FileHandlerState) (current_datetime : String)
    (steering_angle : ℚ) : FileHandlerState :=
  let file_name := image_file_name s.folder current_datetime s.pic_num
  if some file_name ≠ s.last_image then
    { s with
      rows := s.rows ++ [(file_name, steering_angle)]
      last_image := some file_name
      pic_num := s.pic_num + 1 }
  else s

/-- A sequence of write_path_image calls within one process run, each call
given by its current datetime string and steering angle. -/
def runWrites (s : FileHandlerState) (calls : List (String × ℚ)) : FileHandlerState :=
  calls.foldl (fun st c => write_path_image st c.1 c.2) s

/-- The header row written by FileHandler._csv_writer. -/
def header_row : List String := ["Image Name", "Steering Angle"]

/-- FileHandler._csv_exist_and_content: the CSV file exists and has content.
The file is modelled as an optional list of rows; None means the file does
not exist and a positive size means a nonempty row list. -/
def csv_exist_and_content (file : Option (List (List String))) : Bool :=
  match file with
  | none => false
  | some rows => !rows.isEmpty

/-- Effect of FileHandler._csv_writer on the CSV file contents: when
save_images is set the file is opened in append mode (created when missing)
and the header row is appended exactly when the file did not exist or was
empty; otherwise the file is untouched. -/
def csv_after_init (save_images : Bool) (file : Option (List (List String))) :
    Option (List (List String)) :=
  if save_images then
    if csv_exist_and_content file then file
    else some (file.getD [] ++ [header_row])
  else file

/-- State of the open file handles on the CSV path, numbered in order of
opening; flushed records the handles that have been explicitly flushed. -/
structure FileState where
  next : ℕ
  openh : List ℕ
  flushed : List ℕ

def FileState.initial : FileState :=
  { next := 0, openh := [], flushed := [] }

/-- Open the CSV file, returning the fresh handle. -/
def openFile (s : FileState) : ℕ × FileState :=
  (s.next, { s with next := s.next + 1, openh := s.openh ++ [s.next] })

/-- Close a handle on the CSV file. -/
def closeFile (h : ℕ) (s : FileState) : FileState :=
  { s with openh := s.openh.erase h }

/-- Explicitly flush a handle on the CSV file. -/
def flushFile (h : ℕ) (s : FileState) : FileState :=
  { s with flushed := s.flushed ++ [h] }

/-- The handle-valued fields of a FileHandler: writer_handle is the handle
opened inside _csv_writer, through which csv_writer.writerow writes every
row; csv_file_handler is the second handle opened directly in __init__ and
stored in self.csv_file_handler. Both are None when save_images is off. -/
structure FileHandlerHandles where
  save_images : Bool
  writer_handle : Option ℕ
  csv_file_handler : Option ℕ

/-- File-handle effects of FileHandler.__init__, in source order: when the
CSV file exists, _get_last_row opens it for reading and its with-block closes
it again; when save_images is set, _csv_writer then opens the file in append
mode and builds the csv writer on that handle, and __init__ opens the file in
append mode a second time, storing the handle in csv_file_handler. -/
def fileHandler_open_handles (save_images csv_exists : Bool) (s : FileState) :
    FileHandlerHandles × FileState :=
  let s1 := if csv_exists then (let p := openFile s; closeFile p.1 p.2) else s
  if save_images then
    let p1 := openFile s1
    let p2 := openFile p1.2
    ({ save_images := true, writer_handle := some p1.1, csv_file_handler := some p2.1 },
      p2.2)
  else
    ({ save_images := false, writer_handle := none, csv_file_handler := none }, s1)

/-- FileHandler.flush_and_close: when save_images is set, flush and close
self.csv_file_handler; nothing else is flushed or closed. -/
def flush_and_close (fh : FileHandlerHandles) (s : FileState) : FileState :=
  if fh.save_images then
    match fh.csv_file_handler with
    | some h => closeFile h (flushFile h s)
    | none => s
  else s

/-- How the body of main_loop ended: normally (robot.step returned -1 or
button 0 was pressed) or through an exception escaping the loop. -/
inductive LoopExit
  | finished
  | raised

/-- The finally-block of capture_controller_ultimate.main_loop: whichever way
the loop body ends, image_saver.flush_and_close() runs and pygame.quit() is
called. The Boolean reports that pygame was released. -/
def main_loop_cleanup (fh : FileHandlerHandles) (_e : LoopExit) (s : FileState) :
    FileState × Bool :=
  (flush_and_close fh s, true)

/-- The failing run: FileHandler constructed with save_images on and an
existing CSV file, so that handles 0 (read, closed again), 1 (the writer
handle) and 2 (csv_file_handler) are opened in that order. -/
def failing_run_handles : FileHandlerHandles × FileState :=
  fileHandler_open_handles true true FileState.initial

/-- The file state and pygame flag after main_loop ends the failing run with
an exception and the finally-block has run. -/
def failing_run_after_cleanup : FileState × Bool :=
  main_loop_cleanup failing_run_handles.1 LoopExit.raised failing_run_handles.2

end CaptureControllerUltimate

namespace BehavioralCloningAndSensorsDriving

/-- CarEngine.MAX_ANGLE of behavioral_cloning_and_sensors_driving.py (0.28). -/
def MAX_ANGLE : ℚ := 28 / 100

/-- CarEngine.set_steering_angle of behavioral_cloning_and_sensors_driving.py:
identical formula to the one of behavioral_cloning_driving.py, with its own
local DEAD_ZONE constant 0.06. -/
def set_steering_angle (value : ℚ) : ℚ :=
  MAX_ANGLE * (if |value| > (6 / 100 : ℚ) then value else 0)

/-- CarEngine.get_image of behavioral_cloning_and_sensors_driving.py: the same
reshape, resize, crop, resize, BGRA-to-BGR pipeline as in
behavioral_cloning_driving.py. -/
def get_image (cameraHeight cameraWidth : ℕ) (raw_image : ℕ → ℕ) : Image :=
  let image := frombuffer_reshape cameraHeight cameraWidth raw_image
  let image := cv2_resize image 200 66
  let image := crop_rows_from image 35
  let image := cv2_resize image 200 66
  cvtColor_BGRA2BGR image

/-- CarEngine.get_lid_ranges: from the lidar range image (a sample is None
when the reading is infinite), keep the non-infinite samples, and return the
mean range (None for the mean of an empty sequence, where numpy yields NaN),
the number of lasers, the minimum range (plus infinity when there are no
samples), and the detection label decided by the count alone. -/
def get_lid_ranges (range_image : List (Option ℚ)) :
    Option ℚ × ℕ × WithTop ℚ × Option String :=
  let ranges : List ℚ := range_image.filterMap id
  let num_lasers : ℕ := ranges.length
  let mean_range : Option ℚ :=
    if ranges.isEmpty then none else some (ranges.sum / (num_lasers : ℚ))
  let min_range : WithTop ℚ :=
    match ranges.min? with
    | some m => (m : WithTop ℚ)
    | none => ⊤
  let detection : Option String :=
    if num_lasers = 0 then none
    else if num_lasers < 150 then some "Pedestrian"
    else some "Car"
  (mean_range, num_lasers, min_range, detection)

end BehavioralCloningAndSensorsDriving

/-- C1: for every input inside the dead-zone, the steering pipeline outputs
exactly zero: CarEngine.set_steering_angle stores the angle 0 whenever the
absolute value of its input is at most 0.06 (hence for every input strictly
below the constant), and Controller.get_axis returns 0 whenever the absolute
value of the raw axis value is strictly below 0.05, so the steering command
computed from such an axis value is exactly zero. -/
theorem dead_zone_inputs_give_zero_steering (v : ℚ) :
    (|v| ≤ BehavioralCloningDriving.DEAD_ZONE →
      BehavioralCloningDriving.set_steering_angle v = 0) ∧
    (|v| < CaptureControllerUltimate.DEAD_ZONE →
      CaptureControllerUltimate.get_axis v = 0 ∧
      CaptureControllerUltimate.set_steering_angle (CaptureControllerUltimate.get_axis v) = 0) := by
  constructor
  · intro h
    have hlt : ¬ BehavioralCloningDriving.DEAD_ZONE < |v| := not_lt.mpr h
    simp [BehavioralCloningDriving.set_steering_angle, hlt]
  · intro h
    have hax : CaptureControllerUltimate.get_axis v = 0 := by
      simp [CaptureControllerUltimate.get_axis, h]
    exact ⟨hax, by simp [hax, CaptureControllerUltimate.set_steering_angle]⟩

/-- Witness for C1 at the concrete input 1/100. -/
theorem dead_zone_inputs_give_zero_steering_witness :
    BehavioralCloningDriving.set_steering_angle (1 / 100) = 0 ∧
    CaptureControllerUltimate.get_axis (1 / 100) = 0 ∧
    CaptureControllerUltimate.set_steering_angle (CaptureControllerUltimate.get_axis (1 / 100)) = 0 := by
  have h := dead_zone_inputs_give_zero_steering (1 / 100)
  have h2 := h.2 (by norm_num [CaptureControllerUltimate.DEAD_ZONE, abs_lt])
  exact ⟨h.1 (by norm_num [BehavioralCloningDriving.DEAD_ZONE, abs_le]), h2.1, h2.2⟩

/-- C2: above the dead-zone the stored angle is exactly MAX_ANGLE times the
input, the mapping from input value to stored angle is monotonically
non-decreasing over the whole input range (including across the dead-zone
boundary), and the set_steering_angle of the sensors script computes the same
function as the one of behavioral_cloning_driving.py. -/
theorem steering_linear_above_dead_zone_and_monotone (v w : ℚ) :
    (BehavioralCloningDriving.DEAD_ZONE < |v| →
      BehavioralCloningDriving.set_steering_angle v = BehavioralCloningDriving.MAX_ANGLE * v) ∧
    (v ≤ w →
      BehavioralCloningDriving.set_steering_angle v ≤
        BehavioralCloningDriving.set_steering_angle w) ∧
    BehavioralCloningAndSensorsDriving.set_steering_angle v =
      BehavioralCloningDriving.set_steering_angle v := by
  refine ⟨fun h => ?_, fun hvw => ?_, rfl⟩
  · simp [BehavioralCloningDriving.set_steering_angle, h]
  · simp only [BehavioralCloningDriving.set_steering_angle,
      BehavioralCloningDriving.MAX_ANGLE, BehavioralCloningDriving.DEAD_ZONE, gt_iff_lt]
    split_ifs with h1 h2 h2
    · linarith
    · rcases lt_abs.mp h1 with h | h
      · have hw2 := (abs_le.mp (not_lt.mp h2)).2
        linarith
      · linarith
    · rcases lt_abs.mp h2 with h | h
      · linarith
      · have hv1 := (abs_le.mp (not_lt.mp h1)).1
        linarith
    · linarith

/-- Witness for C2 at the concrete inputs 1/10 and 2/10. -/
theorem steering_linear_above_dead_zone_and_monotone_witness :
    BehavioralCloningDriving.set_steering_angle (1 / 10) =
      BehavioralCloningDriving.MAX_ANGLE * (1 / 10) ∧
    BehavioralCloningDriving.set_steering_angle (1 / 10) ≤
      BehavioralCloningDriving.set_steering_angle (2 / 10) := by
  have h := steering_linear_above_dead_zone_and_monotone (1 / 10) (2 / 10)
  exact ⟨h.1 (by norm_num [BehavioralCloningDriving.DEAD_ZONE, lt_abs]),
    h.2.1 (by norm_num)⟩

/-- C10: an input whose absolute value equals the respective dead-zone
constant exactly is treated inconsistently: CarEngine.set_steering_angle
(strict greater-than test against 0.06) stores the angle 0, while
Controller.get_axis (strict less-than test against 0.05) returns the input
unchanged, and that returned value is not zero. -/
theorem dead_zone_boundary_inconsistency (v : ℚ) :
    (|v| = BehavioralCloningDriving.DEAD_ZONE →
      BehavioralCloningDriving.set_steering_angle v = 0) ∧
    (|v| = CaptureControllerUltimate.DEAD_ZONE →
      CaptureControllerUltimate.get_axis v = v ∧
      CaptureControllerUltimate.get_axis v ≠ 0) := by
  constructor
  · intro h
    have hlt : ¬ BehavioralCloningDriving.DEAD_ZONE < |v| := by
      rw [h]
      exact lt_irrefl _
    simp [BehavioralCloningDriving.set_steering_angle, hlt]
  · intro h
    have hne : ¬ |v| < CaptureControllerUltimate.DEAD_ZONE := by
      rw [h]
      exact lt_irrefl _
    have hax : CaptureControllerUltimate.get_axis v = v := by
      simp [CaptureControllerUltimate.get_axis, hne]
    refine ⟨hax, ?_⟩
    rw [hax]
    intro hv0
    rw [hv0] at h
    norm_num [CaptureControllerUltimate.DEAD_ZONE] at h

/-- Witness for C10 at the concrete boundary inputs 6/100 and 5/100. -/
theorem dead_zone_boundary_inconsistency_witness :
    BehavioralCloningDriving.set_steering_angle (6 / 100) = 0 ∧
    CaptureControllerUltimate.get_axis (5 / 100) = 5 / 100 ∧
    CaptureControllerUltimate.get_axis (5 / 100) ≠ 0 := by
  have h1 := (dead_zone_boundary_inconsistency (6 / 100)).1
    (by rw [abs_of_pos (by norm_num : (0 : ℚ) < 6 / 100)]
        norm_num [BehavioralCloningDriving.DEAD_ZONE])
  have h2 := (dead_zone_boundary_inconsistency (5 / 100)).2
    (by rw [abs_of_pos (by norm_num : (0 : ℚ) < 5 / 100)]
        norm_num [CaptureControllerUltimate.DEAD_ZONE])
  exact ⟨h1, h2.1, h2.2⟩

/-- Helper: the number of samples kept by the non-infinite filter equals the
count of samples that are present (non-infinite). -/
theorem length_filterMap_id_eq_countP (l : List (Option ℚ)) :
    (l.filterMap id).length = l.countP (fun v => v.isSome) := by
  induction l with
  | nil => rfl
  | cons a l ih => cases a <;> simp [List.filterMap_cons, List.countP_cons, ih]

/-- C3: the detection label of get_lid_ranges is decided solely by the count
of non-infinite samples against the two fixed constants: count 0 yields no
detection, a count strictly between 0 and 150 yields Pedestrian, and a count
of 150 or more yields Car. -/
theorem getLidRanges_detection_by_count (range_image : List (Option ℚ)) :
    (BehavioralCloningAndSensorsDriving.get_lid_ranges range_image).2.2.2 =
      if range_image.countP (fun v => v.isSome) = 0 then none
      else if range_image.countP (fun v => v.isSome) < 150 then some "Pedestrian"
      else some "Car" := by
  have h := length_filterMap_id_eq_countP range_image
  simp [BehavioralCloningAndSensorsDriving.get_lid_ranges, h]

/-- C4: the detection label of get_lid_ranges is invariant under any
permutation of the lidar samples. -/
theorem getLidRanges_detection_perm_invariant (r1 r2 : List (Option ℚ))
    (h : r1.Perm r2) :
    (BehavioralCloningAndSensorsDriving.get_lid_ranges r1).2.2.2 =
      (BehavioralCloningAndSensorsDriving.get_lid_ranges r2).2.2.2 := by
  have hc : (r1.filterMap id).length = (r2.filterMap id).length :=
    (h.filterMap id).length_eq
  simp [BehavioralCloningAndSensorsDriving.get_lid_ranges, hc]

/-- Witness for C4 on a concrete pair of permuted range images. -/
theorem getLidRanges_detection_perm_invariant_witness :
    ([some 1, none] : List (Option ℚ)).Perm [none, some 1] ∧
    (BehavioralCloningAndSensorsDriving.get_lid_ranges [some 1, none]).2.2.2 =
      (BehavioralCloningAndSensorsDriving.get_lid_ranges [none, some 1]).2.2.2 := by
  have hp : ([some 1, none] : List (Option ℚ)).Perm [none, some 1] :=
    List.Perm.swap none (some 1) []
  exact ⟨hp, getLidRanges_detection_perm_invariant _ _ hp⟩

/-- C9: when every lidar sample is infinite, get_lid_ranges still returns a
full 4-tuple: the mean range is the mean of an empty sequence and hence not a
well-defined number (modelled as None, where numpy yields NaN), the guarded
minimum range is plus infinity, the laser count is 0 and the detection is
None. -/
theorem getLidRanges_all_infinite (range_image : List (Option ℚ))
    (h : ∀ v ∈ range_image, v = none) :
    BehavioralCloningAndSensorsDriving.get_lid_ranges range_image =
      (none, 0, ⊤, none) := by
  have hf : range_image.filterMap id = [] := by
    rw [List.filterMap_eq_nil_iff]
    intro a ha
    exact h a ha
  simp [BehavioralCloningAndSensorsDriving.get_lid_ranges, hf]

/-- Witness for C9 on the all-infinite range image with two samples. -/
theorem getLidRanges_all_infinite_witness :
    BehavioralCloningAndSensorsDriving.get_lid_ranges [none, none] =
      (none, 0, ⊤, none) :=
  getLidRanges_all_infinite [none, none] (by simp)

/-- C5: for every raw camera buffer of the declared camera dimensions and
regardless of its content, get_image returns an image of height 66, width 200
and exactly 3 color channels, in both scripts that define it. -/
theorem get_image_shape (cameraHeight cameraWidth : ℕ) (raw_image : ℕ → ℕ) :
    (BehavioralCloningDriving.get_image cameraHeight cameraWidth raw_image).height = 66 ∧
    (BehavioralCloningDriving.get_image cameraHeight cameraWidth raw_image).width = 200 ∧
    (BehavioralCloningDriving.get_image cameraHeight cameraWidth raw_image).channels = 3 ∧
    BehavioralCloningAndSensorsDriving.get_image cameraHeight cameraWidth raw_image =
      BehavioralCloningDriving.get_image cameraHeight cameraWidth raw_image :=
  ⟨rfl, rfl, rfl, rfl⟩

/-- Helper: write_path_image unfolded to its conditional form. -/
theorem write_path_image_eq (s : CaptureControllerUltimate.FileHandlerState)
    (dt : String) (a : ℚ) :
    CaptureControllerUltimate.write_path_image s dt a =
      if some (CaptureControllerUltimate.image_file_name s.folder dt s.pic_num) ≠
          s.last_image then
        { s with
          rows := s.rows ++
            [(CaptureControllerUltimate.image_file_name s.folder dt s.pic_num, a)]
          last_image :=
            some (CaptureControllerUltimate.image_file_name s.folder dt s.pic_num)
          pic_num := s.pic_num + 1 }
      else s := rfl

/-- Helper: one write_path_image step preserves the invariant that the rows
written so far carry pairwise distinct consecutive file names and that
last_image holds the file name of the last written row. -/
theorem write_path_image_inv (s : CaptureControllerUltimate.FileHandlerState)
    (dt : String) (a : ℚ)
    (h1 : List.Chain' (fun p q => p.1 ≠ q.1) s.rows)
    (h2 : ∀ r, s.rows.getLast? = some r → s.last_image = some r.1) :
    List.Chain' (fun p q => p.1 ≠ q.1)
        (CaptureControllerUltimate.write_path_image s dt a).rows ∧
      ∀ r, (CaptureControllerUltimate.write_path_image s dt a).rows.getLast? = some r →
        (CaptureControllerUltimate.write_path_image s dt a).last_image = some r.1 := by
  rw [write_path_image_eq]
  by_cases hc :
      some (CaptureControllerUltimate.image_file_name s.folder dt s.pic_num) ≠
        s.last_image
  · rw [if_pos hc]
    constructor
    · apply List.Chain'.append h1 (List.chain'_singleton _)
      intro x hx y hy
      simp only [List.head?_cons, Option.mem_some_iff] at hy
      have hli : s.last_image = some x.1 := h2 x hx
      intro hEq
      apply hc
      rw [hli, hEq, ← hy]
    · intro r hr
      simp only [List.getLast?_concat] at hr
      rw [← Option.some_inj.mp hr]
  · rw [if_neg hc]
    exact ⟨h1, h2⟩

/-- Helper: the invariant holds after any sequence of write_path_image calls
starting from a state that satisfies it. -/
theorem runWrites_inv (calls : List (String × ℚ))
    (s : CaptureControllerUltimate.FileHandlerState)
    (h1 : List.Chain' (fun p q => p.1 ≠ q.1) s.rows)
    (h2 : ∀ r, s.rows.getLast? = some r → s.last_image = some r.1) :
    List.Chain' (fun p q => p.1 ≠ q.1)
        (CaptureControllerUltimate.runWrites s calls).rows ∧
      ∀ r, (CaptureControllerUltimate.runWrites s calls).rows.getLast? = some r →
        (CaptureControllerUltimate.runWrites s calls).last_image = some r.1 := by
  induction calls generalizing s with
  | nil => exact ⟨h1, h2⟩
  | cons c cs ih =>
    have hs := write_path_image_inv s c.1 c.2 h1 h2
    exact ih (CaptureControllerUltimate.write_path_image s c.1 c.2) hs.1 hs.2

/-- C6: over any sequence of write_path_image calls within one process run,
the log never contains two consecutive data rows with an identical image
path; moreover each call either leaves the state unchanged (when the freshly
generated file name equals the one tracked in last_image) or appends exactly
the one row carrying the fresh name, so duplicates are detected by file name
only, never by image content. -/
theorem log_no_consecutive_duplicate_paths :
    (∀ (folder : String) (last_row : ℕ) (calls : List (String × ℚ)),
      List.Chain' (fun p q => p.1 ≠ q.1)
        (CaptureControllerUltimate.runWrites
          (CaptureControllerUltimate.FileHandlerState.init folder last_row) calls).rows) ∧
    (∀ (s : CaptureControllerUltimate.FileHandlerState) (dt : String) (a : ℚ),
      (some (CaptureControllerUltimate.image_file_name s.folder dt s.pic_num) =
          s.last_image ∧
        CaptureControllerUltimate.write_path_image s dt a = s) ∨
      (some (CaptureControllerUltimate.image_file_name s.folder dt s.pic_num) ≠
          s.last_image ∧
        (CaptureControllerUltimate.write_path_image s dt a).rows =
          s.rows ++
            [(CaptureControllerUltimate.image_file_name s.folder dt s.pic_num, a)])) := by
  constructor
  · intro folder last_row calls
    refine (runWrites_inv calls _ List.chain'_nil ?_).1
    intro r hr
    simp [CaptureControllerUltimate.FileHandlerState.init] at hr
  · intro s dt a
    by_cases hc :
        some (CaptureControllerUltimate.image_file_name s.folder dt s.pic_num) =
          s.last_image
    · left
      refine ⟨hc, ?_⟩
      rw [write_path_image_eq, if_neg]
      simp [hc]
    · right
      refine ⟨hc, ?_⟩
      rw [write_path_image_eq, if_pos hc]

/-- C7: the CSV log begins with the header row exactly when the file was
missing or empty at construction with save_images enabled; a pre-existing
nonempty file is left untouched (the header is not re-written and the file is
only appended to); and each saved frame with a fresh file name appends
exactly one data row. -/
theorem csv_header_written_once_and_rows_appended :
    CaptureControllerUltimate.csv_after_init true none =
      some [CaptureControllerUltimate.header_row] ∧
    CaptureControllerUltimate.csv_after_init true (some []) =
      some [CaptureControllerUltimate.header_row] ∧
    (∀ rows, rows ≠ [] →
      CaptureControllerUltimate.csv_after_init true (some rows) = some rows) ∧
    (∀ (s : CaptureControllerUltimate.FileHandlerState) (dt : String) (a : ℚ),
      some (CaptureControllerUltimate.image_file_name s.folder dt s.pic_num) ≠
          s.last_image →
        (CaptureControllerUltimate.write_path_image s dt a).rows =
          s.rows ++
            [(CaptureControllerUltimate.image_file_name s.folder dt s.pic_num, a)]) := by
  refine ⟨rfl, rfl, ?_, ?_⟩
  · intro rows hrows
    simp [CaptureControllerUltimate.csv_after_init,
      CaptureControllerUltimate.csv_exist_and_content, hrows]
  · intro s dt a hc
    rw [write_path_image_eq, if_pos hc]

/-- Witness for C7: a file already holding the header row is untouched, and a
concrete first write from the initial state appends exactly one data row. -/
theorem csv_header_written_once_and_rows_appended_witness :
    CaptureControllerUltimate.csv_after_init true
        (some [CaptureControllerUltimate.header_row]) =
      some [CaptureControllerUltimate.header_row] ∧
    (CaptureControllerUltimate.write_path_image
        (CaptureControllerUltimate.FileHandlerState.init "train_images" 0)
        "2024-05-01_12-00" 0).rows =
      (CaptureControllerUltimate.FileHandlerState.init "train_images" 0).rows ++
        [(CaptureControllerUltimate.image_file_name
            (CaptureControllerUltimate.FileHandlerState.init "train_images" 0).folder
            "2024-05-01_12-00"
            (CaptureControllerUltimate.FileHandlerState.init "train_images" 0).pic_num,
          0)] := by
  refine ⟨csv_header_written_once_and_rows_appended.2.2.1 _ (by simp), ?_⟩
  exact csv_header_written_once_and_rows_appended.2.2.2 _ _ _
    (by simp [CaptureControllerUltimate.FileHandlerState.init])

/-- C8: evaluation of the cleanup path at the failing input. In a run with
save_images enabled and an existing CSV file, the handles opened in order are
0 (read handle of _get_last_row, closed by its with-block), 1 (the handle
inside _csv_writer through which every data row is written) and 2
(csv_file_handler). When the loop ends with an exception the finally-block
does run: pygame is released and csv_file_handler (handle 2) is flushed and
closed — but the handle the rows were written through (handle 1) is the one
that stays open and is never flushed, contradicting the claim that the file
handle through which CSV rows were written is flushed and closed. -/
theorem cleanup_flushes_wrong_handle :
    CaptureControllerUltimate.failing_run_after_cleanup.2 = true ∧
    CaptureControllerUltimate.failing_run_handles.1.writer_handle = some 1 ∧
    CaptureControllerUltimate.failing_run_handles.1.csv_file_handler = some 2 ∧
    CaptureControllerUltimate.failing_run_after_cleanup.1.flushed = [2] ∧
    CaptureControllerUltimate.failing_run_after_cleanup.1.openh = [1] := by
  decide
